import Mathlib

/-!
Shallow embedding of the peer-synchronization core of the lighthouse
repository: `src/beacon_node/network/src/sync/simple_sync.rs` (the
`SimpleSync` coordinator) and `src/beacon_node/network/src/message_handler.rs`
(the `MessageHandler` dispatcher).

Modelling conventions:
- `Hash256`, `Epoch`, slot numbers and `u8`/`u64` scalars are modelled as
  `Nat` (the sync code only compares them and adds small constants; the
  one subtraction is saturating, see `Slot.sub_one` below).
- `PeerId` is an opaque comparable identity, modelled as `Nat`.
- Rust `HashMap`s are modelled as association lists with overwrite-insert,
  first-match lookup and filter-erase (namespace `HMap`); ordering of
  entries is irrelevant to every lookup.
- Logging, the network send channel and the tokio executor have no effect
  on the coordinator or dispatcher state; sends are returned as values
  (`MessageHandler.send_hello`) instead of being performed.
- `Instant::now()` is modelled by threading an explicit `now : Nat`
  timestamp into the operations that read the clock.
-/

set_option autoImplicit false

abbrev PeerId := Nat

abbrev Hash256 := Nat

def Hash256.zero : Hash256 := 0

abbrev Epoch := Nat

/-- Modelled from the spec: the repository's `Slot` newtype (its defining
module is not among the provided sources) supplies the subtraction used in
`state.slot - 1`. The spec requires the computation of `best_slot` from the
chain's current slot to be well-defined for every slot value, including
slot 0, i.e. saturating subtraction, which truncated `Nat` subtraction
models exactly. Slot numbers themselves are modelled as plain `Nat`. -/
def Slot.sub_one (s : Nat) : Nat := s - 1

namespace HMap

/-! Association-list model of Rust's `HashMap`. -/

variable {K V : Type} [DecidableEq K]

/-- `HashMap::get`: first entry with the given key. -/
def get (m : List (K × V)) (k : K) : Option V :=
  match m with
  | [] => none
  | e :: rest => if e.1 = k then some e.2 else get rest k

/-- `HashMap::remove` (the resulting map): drop every entry with the key. -/
def erase (m : List (K × V)) (k : K) : List (K × V) :=
  match m with
  | [] => []
  | e :: rest => if e.1 = k then erase rest k else e :: erase rest k

/-- `HashMap::insert`: overwrite any previous entry for the key. -/
def insert (m : List (K × V)) (k : K) (v : V) : List (K × V) :=
  (k, v) :: erase m k

theorem get_erase_self (m : List (K × V)) (k : K) : get (erase m k) k = none := by
  induction m with
  | nil => rfl
  | cons e rest ih =>
    by_cases h : e.1 = k
    · simpa [erase, h] using ih
    · simp [erase, h, get, ih]

theorem get_erase_ne (m : List (K × V)) (k k' : K) (h : k' ≠ k) :
    get (erase m k) k' = get m k' := by
  induction m with
  | nil => rfl
  | cons e rest ih =>
    by_cases he : e.1 = k
    · have he' : ¬ e.1 = k' := fun hc => h (hc.symm.trans he)
      simp [erase, he, get, he', Ne.symm h, ih]
    · simp [erase, he, get, ih]

theorem get_insert_self (m : List (K × V)) (k : K) (v : V) :
    get (insert m k v) k = some v := by
  simp [insert, get]

theorem get_insert_ne (m : List (K × V)) (k k' : K) (v : V) (h : k' ≠ k) :
    get (insert m k v) k' = get m k' := by
  have : ¬ k = k' := fun hc => h hc.symm
  simp [insert, get, this, get_erase_ne m k k' h]

theorem get_eq_none_of_ne {m : List (K × V)} {k : K}
    (h : ∀ e ∈ m, e.1 ≠ k) : get m k = none := by
  induction m with
  | nil => rfl
  | cons e rest ih =>
    have he : e.1 ≠ k := h e (by simp)
    simp only [get, he, if_neg he]
    exact ih (fun e' he' => h e' (by simp [he']))

end HMap

/-! ## Data model (simple_sync.rs) -/

/-- `SLOT_IMPORT_TOLERANCE` (simple_sync.rs line 10). -/
def SLOT_IMPORT_TOLERANCE : Nat := 100

/-- The HELLO RPC wire payload (`eth2_libp2p::rpc::HelloMessage`);
`network_id` is a `u8` in the source, only ever compared for equality. -/
structure HelloMessage where
  network_id : Nat
  latest_finalized_root : Hash256
  latest_finalized_epoch : Epoch
  best_root : Hash256
  best_slot : Nat
  deriving DecidableEq, Repr

/-- Per-peer cached snapshot (simple_sync.rs lines 13-18). -/
structure PeerSyncInfo where
  latest_finalized_root : Hash256
  latest_finalized_epoch : Epoch
  best_root : Hash256
  best_slot : Nat
  deriving DecidableEq, Repr

/-- The current syncing state (simple_sync.rs lines 22-26). -/
inductive SyncState where
  | Idle
  | Downloading
  | Stopped
  deriving DecidableEq, Repr

/-- The chain-state snapshot read through `chain.get_state()`. Only the
fields the sync core reads are listed, plus the chain's actual head block
root, which `generate_hello` deliberately never reads (source line 71 uses
the `Hash256::zero()` placeholder instead). -/
structure BeaconState where
  finalized_root : Hash256
  finalized_epoch : Epoch
  slot : Nat
  head_block_root : Hash256
  deriving DecidableEq, Repr

/-- The `SimpleSync` coordinator state (simple_sync.rs lines 31-46); the
`chain` reference is passed explicitly to the operations that read it, and
the logger has no modelled effect. -/
structure SimpleSync where
  known_peers : List (PeerId × PeerSyncInfo)
  state : SyncState
  network_id : Nat
  latest_finalized_epoch : Epoch
  latest_slot : Nat
  deriving DecidableEq, Repr

/-- `SimpleSync::new` (simple_sync.rs lines 49-61); `network_id` comes from
`beacon_chain.get_spec().network_id`. -/
def SimpleSync.new (c : BeaconState) (network_id : Nat) : SimpleSync :=
  { known_peers := []
    state := SyncState.Idle
    network_id := network_id
    latest_finalized_epoch := c.finalized_epoch
    latest_slot := Slot.sub_one c.slot }

/-- `SimpleSync::generate_hello` (simple_sync.rs lines 64-74): packages the
current chain snapshot; `best_root` is the `Hash256::zero()` placeholder. -/
def SimpleSync.generate_hello (s : SimpleSync) (c : BeaconState) : HelloMessage :=
  { network_id := s.network_id
    latest_finalized_root := c.finalized_root
    latest_finalized_epoch := c.finalized_epoch
    best_root := Hash256.zero
    best_slot := Slot.sub_one c.slot }

/-- `SimpleSync::validate_peer` (simple_sync.rs lines 76-111). The
epoch/finalized-root consistency block at lines 82-88 is an empty
placeholder in the source (its body is commented out) and therefore has no
effect here. Returns the updated coordinator and the boolean result. -/
def SimpleSync.validate_peer (s : SimpleSync) (peer_id : PeerId)
    (hello_message : HelloMessage) : SimpleSync × Bool :=
  if hello_message.network_id ≠ s.network_id then
    (s, false)
  else
    let peer_info : PeerSyncInfo :=
      { latest_finalized_root := hello_message.latest_finalized_root
        latest_finalized_epoch := hello_message.latest_finalized_epoch
        best_root := hello_message.best_root
        best_slot := hello_message.best_slot }
    let s1 := { s with known_peers := HMap.insert s.known_peers peer_id peer_info }
    let s2 :=
      if s1.state = SyncState.Idle ∧
          hello_message.best_slot > s1.latest_slot + SLOT_IMPORT_TOLERANCE then
        { s1 with state := SyncState.Downloading }
      else s1
    (s2, true)

/-! ## Dispatcher (message_handler.rs) -/

/-- RPC request bodies; variants other than `Hello` all land in the
source's wildcard no-op branch and are collapsed into `Other`. -/
inductive RPCRequest where
  | Hello (msg : HelloMessage)
  | Other
  deriving DecidableEq, Repr

/-- RPC response bodies; non-`Hello` variants collapse into `Other`. -/
inductive RPCResponse where
  | Hello (msg : HelloMessage)
  | Other
  deriving DecidableEq, Repr

/-- `RPCEvent` request/response envelopes with their correlation id. -/
inductive RPCEvent where
  | Request (id : Nat) (method_id : Nat) (body : RPCRequest)
  | Response (id : Nat) (method_id : Nat) (result : RPCResponse)
  deriving DecidableEq, Repr

/-- `HandlerMessage` (message_handler.rs lines 40-49). -/
inductive HandlerMessage where
  | PeerDialed (peer_id : PeerId)
  | PeerDisconnected (peer_id : PeerId)
  | RPC (peer_id : PeerId) (event : RPCEvent)
  | BlockImported
  deriving DecidableEq, Repr

/-- `MessageHandler` state (message_handler.rs lines 23-36): the sync
coordinator, the pending-request map `requests` keyed by `(peer, id)` with
the send timestamp, and the per-peer id counters `request_ids`. -/
structure MessageHandler where
  sync : SimpleSync
  requests : List ((PeerId × Nat) × Nat)
  request_ids : List (PeerId × Nat)
  deriving DecidableEq, Repr

/-- `MessageHandler::generate_request_id` (message_handler.rs lines
171-187): read the peer's counter (0 for a never-seen peer), hand out that
value, bump the counter, and register the pending request at time `now`. -/
def MessageHandler.generate_request_id (h : MessageHandler) (peer_id : PeerId)
    (now : Nat) : MessageHandler × Nat :=
  let borrowed_id := (HMap.get h.request_ids peer_id).getD 0
  let id := borrowed_id
  let request_ids := HMap.insert h.request_ids peer_id (borrowed_id + 1)
  let requests := HMap.insert h.requests (peer_id, id) now
  ({ h with request_ids := request_ids, requests := requests }, id)

/-- `MessageHandler::send_hello` (message_handler.rs lines 191-209): builds
the HELLO request or response and forwards it to the network channel via
`send_rpc`; the handler state is untouched, so the event is returned as a
value. `RPCMethod::Hello.into()` is the method id 0. -/
def MessageHandler.send_hello (h : MessageHandler) (c : BeaconState)
    (peer_id : PeerId) (id : Nat) (is_request : Bool) : MessageHandler × RPCEvent :=
  let rpc_event :=
    if is_request then
      RPCEvent.Request id 0 (RPCRequest.Hello (h.sync.generate_hello c))
    else
      RPCEvent.Response id 0 (RPCResponse.Hello (h.sync.generate_hello c))
  (h, rpc_event)

/-- `MessageHandler::validate_hello` (message_handler.rs lines 157-166): a
`false` result is only logged (banning the peer is a TODO in the source). -/
def MessageHandler.validate_hello (h : MessageHandler) (peer_id : PeerId)
    (message : HelloMessage) : MessageHandler :=
  { h with sync := (h.sync.validate_peer peer_id message).1 }

/-- `MessageHandler::handle_rpc_response` (message_handler.rs lines
132-146): `self.requests.remove(&(peer_id, id))` removes the entry if
present; on `None` the handler returns early with nothing else changed. -/
def MessageHandler.handle_rpc_response (h : MessageHandler) (peer_id : PeerId)
    (id : Nat) (response : RPCResponse) : MessageHandler :=
  if (HMap.get h.requests (peer_id, id)).isNone then
    h
  else
    let h1 := { h with requests := HMap.erase h.requests (peer_id, id) }
    match response with
    | RPCResponse.Hello hello_message => h1.validate_hello peer_id hello_message
    | RPCResponse.Other => h1

/-- `MessageHandler::handle_hello_request` (message_handler.rs lines
149-154): reply on the same id, then validate the peer. -/
def MessageHandler.handle_hello_request (h : MessageHandler) (c : BeaconState)
    (peer_id : PeerId) (id : Nat) (hello_message : HelloMessage) : MessageHandler :=
  let h1 := (h.send_hello c peer_id id false).1
  h1.validate_hello peer_id hello_message

/-- `MessageHandler::handle_rpc_request` (message_handler.rs lines 120-128). -/
def MessageHandler.handle_rpc_request (h : MessageHandler) (c : BeaconState)
    (peer_id : PeerId) (id : Nat) (request : RPCRequest) : MessageHandler :=
  match request with
  | RPCRequest.Hello hello_message => h.handle_hello_request c peer_id id hello_message
  | RPCRequest.Other => h

/-- `MessageHandler::handle_rpc_message` (message_handler.rs lines 111-117). -/
def MessageHandler.handle_rpc_message (h : MessageHandler) (c : BeaconState)
    (peer_id : PeerId) (rpc_message : RPCEvent) : MessageHandler :=
  match rpc_message with
  | RPCEvent.Request id _ body => h.handle_rpc_request c peer_id id body
  | RPCEvent.Response id _ result => h.handle_rpc_response peer_id id result

/-- `MessageHandler::handle_message` (message_handler.rs lines 92-106):
`PeerDialed` allocates an id and sends HELLO; RPC events are dispatched;
every other variant, including `PeerDisconnected`, falls into the
source's wildcard branch and does nothing. -/
def MessageHandler.handle_message (h : MessageHandler) (c : BeaconState)
    (now : Nat) (message : HandlerMessage) : MessageHandler :=
  match message with
  | HandlerMessage.PeerDialed peer_id =>
      let r := h.generate_request_id peer_id now
      (r.1.send_hello c peer_id r.2 true).1
  | HandlerMessage.RPC peer_id rpc_event => h.handle_rpc_message c peer_id rpc_event
  | _ => h

/-- The peer's current request-id counter as `or_insert_with(|| 0)` reads it. -/
def counterOf (h : MessageHandler) (peer_id : PeerId) : Nat :=
  (HMap.get h.request_ids peer_id).getD 0

/-! ## Helper lemmas about validate_peer -/

theorem SimpleSync.validate_peer_of_network_ne (s : SimpleSync) (p : PeerId)
    (m : HelloMessage) (h : m.network_id ≠ s.network_id) :
    s.validate_peer p m = (s, false) := by
  simp [SimpleSync.validate_peer, h]

theorem SimpleSync.validate_peer_snd_of_network_eq (s : SimpleSync) (p : PeerId)
    (m : HelloMessage) (h : m.network_id = s.network_id) :
    (s.validate_peer p m).2 = true := by
  have hne : ¬ m.network_id ≠ s.network_id := by simp [h]
  simp [SimpleSync.validate_peer, hne, apply_ite Prod.snd]

theorem SimpleSync.validate_peer_known_peers_of_network_eq (s : SimpleSync) (p : PeerId)
    (m : HelloMessage) (h : m.network_id = s.network_id) :
    (s.validate_peer p m).1.known_peers =
      HMap.insert s.known_peers p
        ⟨m.latest_finalized_root, m.latest_finalized_epoch, m.best_root, m.best_slot⟩ := by
  have hne : ¬ m.network_id ≠ s.network_id := by simp [h]
  simp [SimpleSync.validate_peer, hne, apply_ite Prod.fst, apply_ite SimpleSync.known_peers]

theorem SimpleSync.validate_peer_state_of_network_eq (s : SimpleSync) (p : PeerId)
    (m : HelloMessage) (h : m.network_id = s.network_id) :
    (s.validate_peer p m).1.state =
      (if s.state = SyncState.Idle ∧ m.best_slot > s.latest_slot + SLOT_IMPORT_TOLERANCE
       then SyncState.Downloading else s.state) := by
  have hne : ¬ m.network_id ≠ s.network_id := by simp [h]
  simp [SimpleSync.validate_peer, hne, apply_ite Prod.fst, apply_ite SimpleSync.state]

/-! ## Claim theorems -/

/-- Claim C1: for every peer and every handshake whose network id differs
from the local one, validate_peer returns false and mutates nothing: the
peer registry (and so its size), the SyncState, and every PeerSyncInfo
entry are exactly as before the call. -/
theorem validate_peer_network_mismatch_no_mutation (s : SimpleSync) (p : PeerId)
    (m : HelloMessage) (h : m.network_id ≠ s.network_id) :
    (s.validate_peer p m).2 = false ∧
    (s.validate_peer p m).1 = s ∧
    (s.validate_peer p m).1.known_peers = s.known_peers ∧
    (s.validate_peer p m).1.known_peers.length = s.known_peers.length ∧
    (s.validate_peer p m).1.state = s.state := by
  have hr := SimpleSync.validate_peer_of_network_ne s p m h
  simp [hr]

/-- Concrete run of C1: a handshake with network id 2 against a local
network id 1 is rejected without touching the coordinator. -/
theorem validate_peer_network_mismatch_no_mutation_witness :
    ((SimpleSync.mk [] SyncState.Idle 1 0 0).validate_peer 7
        (HelloMessage.mk 2 3 4 5 6)).2 = false ∧
    ((SimpleSync.mk [] SyncState.Idle 1 0 0).validate_peer 7
        (HelloMessage.mk 2 3 4 5 6)).1 = SimpleSync.mk [] SyncState.Idle 1 0 0 ∧
    ((SimpleSync.mk [] SyncState.Idle 1 0 0).validate_peer 7
        (HelloMessage.mk 2 3 4 5 6)).1.known_peers = [] ∧
    ((SimpleSync.mk [] SyncState.Idle 1 0 0).validate_peer 7
        (HelloMessage.mk 2 3 4 5 6)).1.known_peers.length = ([] : List (PeerId × PeerSyncInfo)).length ∧
    ((SimpleSync.mk [] SyncState.Idle 1 0 0).validate_peer 7
        (HelloMessage.mk 2 3 4 5 6)).1.state = SyncState.Idle :=
  validate_peer_network_mismatch_no_mutation (SimpleSync.mk [] SyncState.Idle 1 0 0) 7
    (HelloMessage.mk 2 3 4 5 6) (by decide)

/-- Claim C2: with a matching network id, the sync transition fires exactly
when the advertised best_slot exceeds the local latest_slot by more than
SLOT_IMPORT_TOLERANCE = 100, and only from the Idle state; in particular,
from Idle, best_slot = latest_slot + 101 yields Downloading while
best_slot = latest_slot + 100 leaves the state Idle. -/
theorem validate_peer_idle_transition_boundary (s : SimpleSync) (p : PeerId)
    (m : HelloMessage) (h : m.network_id = s.network_id) :
    SLOT_IMPORT_TOLERANCE = 100 ∧
    (s.validate_peer p m).1.state =
      (if s.state = SyncState.Idle ∧ m.best_slot > s.latest_slot + SLOT_IMPORT_TOLERANCE
       then SyncState.Downloading else s.state) ∧
    (s.state = SyncState.Idle → m.best_slot = s.latest_slot + 101 →
      (s.validate_peer p m).1.state = SyncState.Downloading) ∧
    (s.state = SyncState.Idle → m.best_slot = s.latest_slot + 100 →
      (s.validate_peer p m).1.state = SyncState.Idle) := by
  have ht : SLOT_IMPORT_TOLERANCE = 100 := rfl
  have hstate := SimpleSync.validate_peer_state_of_network_eq s p m h
  refine ⟨ht, hstate, ?_, ?_⟩
  · intro hIdle hb
    have hgt : m.best_slot > s.latest_slot + SLOT_IMPORT_TOLERANCE := by
      simp only [SLOT_IMPORT_TOLERANCE]
      omega
    rw [hstate, if_pos ⟨hIdle, hgt⟩]
  · intro hIdle hb
    have hngt : ¬ (s.state = SyncState.Idle ∧
        m.best_slot > s.latest_slot + SLOT_IMPORT_TOLERANCE) := by
      rintro ⟨-, hlt⟩
      simp only [SLOT_IMPORT_TOLERANCE] at hlt
      omega
    rw [hstate, if_neg hngt]
    exact hIdle

/-- Concrete run of C2: local latest_slot 200 in Idle; best_slot 301
triggers Downloading and best_slot 300 does not. -/
theorem validate_peer_idle_transition_boundary_witness :
    ((SimpleSync.mk [] SyncState.Idle 1 0 200).validate_peer 3
        (HelloMessage.mk 1 0 0 0 301)).1.state = SyncState.Downloading ∧
    ((SimpleSync.mk [] SyncState.Idle 1 0 200).validate_peer 3
        (HelloMessage.mk 1 0 0 0 300)).1.state = SyncState.Idle :=
  ⟨(validate_peer_idle_transition_boundary (SimpleSync.mk [] SyncState.Idle 1 0 200) 3
      (HelloMessage.mk 1 0 0 0 301) (by decide)).2.2.1 (by decide) (by decide),
   (validate_peer_idle_transition_boundary (SimpleSync.mk [] SyncState.Idle 1 0 200) 3
      (HelloMessage.mk 1 0 0 0 300) (by decide)).2.2.2 (by decide) (by decide)⟩

/-- Claim C3: with a matching network id, validate_peer returns true and
the registry lookup for that peer afterwards yields a PeerSyncInfo whose
four fields equal exactly those of the submitted handshake, overwriting
any prior entry for that peer wholesale while leaving other peers alone. -/
theorem validate_peer_network_match_upserts (s : SimpleSync) (p : PeerId)
    (m : HelloMessage) (h : m.network_id = s.network_id) :
    (s.validate_peer p m).2 = true ∧
    HMap.get (s.validate_peer p m).1.known_peers p =
      some ⟨m.latest_finalized_root, m.latest_finalized_epoch, m.best_root, m.best_slot⟩ ∧
    (∀ q, q ≠ p → HMap.get (s.validate_peer p m).1.known_peers q =
      HMap.get s.known_peers q) := by
  refine ⟨SimpleSync.validate_peer_snd_of_network_eq s p m h, ?_, ?_⟩
  · rw [SimpleSync.validate_peer_known_peers_of_network_eq s p m h, HMap.get_insert_self]
  · intro q hq
    rw [SimpleSync.validate_peer_known_peers_of_network_eq s p m h,
      HMap.get_insert_ne _ _ _ _ hq]

/-- Concrete run of C3: the peer already has a registry entry, and the new
handshake overwrites it wholesale. -/
theorem validate_peer_network_match_upserts_witness :
    ((SimpleSync.mk [(7, PeerSyncInfo.mk 9 9 9 9)] SyncState.Idle 1 0 50).validate_peer 7
        (HelloMessage.mk 1 11 12 13 14)).2 = true ∧
    HMap.get ((SimpleSync.mk [(7, PeerSyncInfo.mk 9 9 9 9)] SyncState.Idle 1 0 50).validate_peer 7
        (HelloMessage.mk 1 11 12 13 14)).1.known_peers 7 = some (PeerSyncInfo.mk 11 12 13 14) :=
  ⟨(validate_peer_network_match_upserts
      (SimpleSync.mk [(7, PeerSyncInfo.mk 9 9 9 9)] SyncState.Idle 1 0 50) 7
      (HelloMessage.mk 1 11 12 13 14) (by decide)).1,
   (validate_peer_network_match_upserts
      (SimpleSync.mk [(7, PeerSyncInfo.mk 9 9 9 9)] SyncState.Idle 1 0 50) 7
      (HelloMessage.mk 1 11 12 13 14) (by decide)).2.1⟩

/-- Claim C4: generate_request_id hands out per-peer ids 0, 1, 2, ...:
a never-seen peer gets 0, each call returns the peer's counter and bumps
it by one, interleaved calls for other peers do not disturb it, and each
call adds exactly one new pending-request entry keyed by the peer and the
returned id (new, because every registered id is below the counter). -/
theorem generate_request_id_monotonic (h : MessageHandler) (p q : PeerId) (t t' : Nat)
    (hfresh : ∀ i, (HMap.get h.requests (p, i)).isSome = true → i < counterOf h p) :
    (HMap.get h.request_ids p = none → (h.generate_request_id p t).2 = 0) ∧
    (h.generate_request_id p t).2 = counterOf h p ∧
    counterOf (h.generate_request_id p t).1 p = counterOf h p + 1 ∧
    ((h.generate_request_id p t).1.generate_request_id p t').2 = counterOf h p + 1 ∧
    (q ≠ p → counterOf (h.generate_request_id q t).1 p = counterOf h p) ∧
    HMap.get h.requests (p, (h.generate_request_id p t).2) = none ∧
    HMap.get (h.generate_request_id p t).1.requests (p, (h.generate_request_id p t).2) =
      some t ∧
    (∀ k, k ≠ (p, (h.generate_request_id p t).2) →
      HMap.get (h.generate_request_id p t).1.requests k = HMap.get h.requests k) := by
  have hcur : (h.generate_request_id p t).2 = counterOf h p := rfl
  have hfreshNone : HMap.get h.requests (p, counterOf h p) = none := by
    cases hg : HMap.get h.requests (p, counterOf h p) with
    | none => rfl
    | some v =>
      exact absurd (hfresh _ (by simp [hg])) (lt_irrefl _)
  refine ⟨?_, hcur, ?_, ?_, ?_, ?_, ?_, ?_⟩
  · intro hnone
    simp [MessageHandler.generate_request_id, counterOf, hnone]
  · simp [MessageHandler.generate_request_id, counterOf, HMap.get_insert_self]
  · simp [MessageHandler.generate_request_id, counterOf, HMap.get_insert_self]
  · intro hq
    simp [MessageHandler.generate_request_id, counterOf,
      HMap.get_insert_ne _ _ _ _ (Ne.symm hq)]
  · simpa [hcur] using hfreshNone
  · simp [MessageHandler.generate_request_id, HMap.get_insert_self]
  · intro k hk
    simpa [MessageHandler.generate_request_id] using
      HMap.get_insert_ne h.requests (p, counterOf h p) k t hk

/-- Concrete run of C4: a fresh handler gives peer 1 the ids 0 then 1, an
interleaved call for peer 2 leaves peer 1's counter alone, and the pending
entry for (1, 0) is created with the supplied timestamp. -/
theorem generate_request_id_monotonic_witness :
    (HMap.get (MessageHandler.mk (SimpleSync.mk [] SyncState.Idle 1 0 0) [] []).request_ids 1 =
        none →
      ((MessageHandler.mk (SimpleSync.mk [] SyncState.Idle 1 0 0) [] []).generate_request_id
          1 10).2 = 0) ∧
    ((MessageHandler.mk (SimpleSync.mk [] SyncState.Idle 1 0 0) [] []).generate_request_id
        1 10).2 =
      counterOf (MessageHandler.mk (SimpleSync.mk [] SyncState.Idle 1 0 0) [] []) 1 ∧
    counterOf ((MessageHandler.mk (SimpleSync.mk [] SyncState.Idle 1 0 0) [] []).generate_request_id
        1 10).1 1 =
      counterOf (MessageHandler.mk (SimpleSync.mk [] SyncState.Idle 1 0 0) [] []) 1 + 1 ∧
    (((MessageHandler.mk (SimpleSync.mk [] SyncState.Idle 1 0 0) [] []).generate_request_id
        1 10).1.generate_request_id 1 11).2 =
      counterOf (MessageHandler.mk (SimpleSync.mk [] SyncState.Idle 1 0 0) [] []) 1 + 1 ∧
    ((2 : PeerId) ≠ 1 →
      counterOf ((MessageHandler.mk (SimpleSync.mk [] SyncState.Idle 1 0 0) [] []).generate_request_id
          2 10).1 1 =
        counterOf (MessageHandler.mk (SimpleSync.mk [] SyncState.Idle 1 0 0) [] []) 1) ∧
    HMap.get (MessageHandler.mk (SimpleSync.mk [] SyncState.Idle 1 0 0) [] []).requests
      (1, ((MessageHandler.mk (SimpleSync.mk [] SyncState.Idle 1 0 0) [] []).generate_request_id
        1 10).2) = none ∧
    HMap.get ((MessageHandler.mk (SimpleSync.mk [] SyncState.Idle 1 0 0) [] []).generate_request_id
        1 10).1.requests
      (1, ((MessageHandler.mk (SimpleSync.mk [] SyncState.Idle 1 0 0) [] []).generate_request_id
        1 10).2) = some 10 ∧
    (∀ k, k ≠ (1, ((MessageHandler.mk (SimpleSync.mk [] SyncState.Idle 1 0 0) [] []).generate_request_id
        1 10).2) →
      HMap.get ((MessageHandler.mk (SimpleSync.mk [] SyncState.Idle 1 0 0) [] []).generate_request_id
          1 10).1.requests k =
        HMap.get (MessageHandler.mk (SimpleSync.mk [] SyncState.Idle 1 0 0) [] []).requests k) :=
  generate_request_id_monotonic (MessageHandler.mk (SimpleSync.mk [] SyncState.Idle 1 0 0) [] [])
    1 2 10 11 (by intro i hi; simp [HMap.get] at hi)

/-- Claim C5: an RpcResponseReceived with no pending entry for (peer, id)
is discarded with no state change at all (in particular validate_peer is
not run); with a pending entry, exactly that entry is removed, and for a
HELLO payload validate_peer is run on it. -/
theorem handle_rpc_response_pending_gate (h : MessageHandler) (p : PeerId) (id : Nat)
    (resp : RPCResponse) :
    (HMap.get h.requests (p, id) = none → h.handle_rpc_response p id resp = h) ∧
    ((HMap.get h.requests (p, id)).isSome = true →
      HMap.get (h.handle_rpc_response p id resp).requests (p, id) = none ∧
      (∀ k, k ≠ (p, id) → HMap.get (h.handle_rpc_response p id resp).requests k =
        HMap.get h.requests k) ∧
      (h.handle_rpc_response p id resp).request_ids = h.request_ids ∧
      (∀ m, resp = RPCResponse.Hello m →
        (h.handle_rpc_response p id resp).sync = (h.sync.validate_peer p m).1) ∧
      (resp = RPCResponse.Other → (h.handle_rpc_response p id resp).sync = h.sync)) := by
  constructor
  · intro hnone
    simp [MessageHandler.handle_rpc_response, hnone]
  · intro hsome
    obtain ⟨v, hv⟩ := Option.isSome_iff_exists.mp hsome
    cases resp with
    | Hello m =>
      refine ⟨?_, ?_, ?_, ?_, ?_⟩
      · simp [MessageHandler.handle_rpc_response, hv, MessageHandler.validate_hello,
          HMap.get_erase_self]
      · intro k hk
        simpa [MessageHandler.handle_rpc_response, hv, MessageHandler.validate_hello] using
          HMap.get_erase_ne h.requests (p, id) k hk
      · simp [MessageHandler.handle_rpc_response, hv, MessageHandler.validate_hello]
      · intro m' hm
        cases hm
        simp [MessageHandler.handle_rpc_response, hv, MessageHandler.validate_hello]
      · intro hm
        cases hm
    | Other =>
      refine ⟨?_, ?_, ?_, ?_, ?_⟩
      · simp [MessageHandler.handle_rpc_response, hv, HMap.get_erase_self]
      · intro k hk
        simpa [MessageHandler.handle_rpc_response, hv] using
          HMap.get_erase_ne h.requests (p, id) k hk
      · simp [MessageHandler.handle_rpc_response, hv]
      · intro m' hm
        cases hm
      · intro hm
        simp [MessageHandler.handle_rpc_response, hv]

/-- Concrete run of C5: with no pending entry the HELLO response is
discarded wholesale; with the entry (3, 0) pending, it is removed and
validate_peer runs on the payload. -/
theorem handle_rpc_response_pending_gate_witness :
    (MessageHandler.mk (SimpleSync.mk [] SyncState.Idle 1 0 0) [] []).handle_rpc_response 3 0
        (RPCResponse.Hello (HelloMessage.mk 1 2 3 4 5)) =
      MessageHandler.mk (SimpleSync.mk [] SyncState.Idle 1 0 0) [] [] ∧
    HMap.get ((MessageHandler.mk (SimpleSync.mk [] SyncState.Idle 1 0 0) [((3, 0), 7)]
        [(3, 1)]).handle_rpc_response 3 0
        (RPCResponse.Hello (HelloMessage.mk 1 2 3 4 5))).requests (3, 0) = none ∧
    ((MessageHandler.mk (SimpleSync.mk [] SyncState.Idle 1 0 0) [((3, 0), 7)]
        [(3, 1)]).handle_rpc_response 3 0
        (RPCResponse.Hello (HelloMessage.mk 1 2 3 4 5))).sync =
      ((SimpleSync.mk [] SyncState.Idle 1 0 0).validate_peer 3 (HelloMessage.mk 1 2 3 4 5)).1 :=
  ⟨(handle_rpc_response_pending_gate (MessageHandler.mk (SimpleSync.mk [] SyncState.Idle 1 0 0)
      [] []) 3 0 (RPCResponse.Hello (HelloMessage.mk 1 2 3 4 5))).1 (by simp [HMap.get]),
   ((handle_rpc_response_pending_gate (MessageHandler.mk (SimpleSync.mk [] SyncState.Idle 1 0 0)
      [((3, 0), 7)] [(3, 1)]) 3 0 (RPCResponse.Hello (HelloMessage.mk 1 2 3 4 5))).2
      (by simp [HMap.get])).1,
   (((handle_rpc_response_pending_gate (MessageHandler.mk (SimpleSync.mk [] SyncState.Idle 1 0 0)
      [((3, 0), 7)] [(3, 1)]) 3 0 (RPCResponse.Hello (HelloMessage.mk 1 2 3 4 5))).2
      (by simp [HMap.get])).2.2.2.1 (HelloMessage.mk 1 2 3 4 5) rfl)⟩

/-- Claim C6 (divergence from spec): the spec requires a PeerDisconnected
event to remove the peer's PeerSyncInfo from the registry, but in the
source the PeerDisconnected variant falls into handle_message's wildcard
no-op branch, so the handler -- in particular the peer registry -- is
completely unchanged and a later lookup still returns the old entry. -/
theorem peer_disconnected_does_not_remove (h : MessageHandler) (c : BeaconState)
    (now : Nat) (p : PeerId) :
    h.handle_message c now (HandlerMessage.PeerDisconnected p) = h ∧
    HMap.get (h.handle_message c now (HandlerMessage.PeerDisconnected p)).sync.known_peers p =
      HMap.get h.sync.known_peers p :=
  ⟨rfl, rfl⟩

/-- Claim C7: feeding coordinator A's generated HELLO into coordinator B's
validate_peer, when A and B share network id, local finalized epoch and
head slot, succeeds and stores in B's registry exactly the message A
generated, field for field. -/
theorem hello_roundtrip_self_consistency (a b : SimpleSync) (ca cb : BeaconState)
    (p : PeerId) (m : HelloMessage)
    (hm : m = a.generate_hello ca)
    (hnet : a.network_id = b.network_id)
    (hepoch : a.latest_finalized_epoch = b.latest_finalized_epoch)
    (hslot : ca.slot = cb.slot) :
    (b.validate_peer p m).2 = true ∧
    HMap.get (b.validate_peer p m).1.known_peers p =
      some ⟨m.latest_finalized_root, m.latest_finalized_epoch, m.best_root, m.best_slot⟩ := by
  have hmb : m.network_id = b.network_id := by
    rw [hm]
    exact hnet
  exact ⟨SimpleSync.validate_peer_snd_of_network_eq b p m hmb, by
    rw [SimpleSync.validate_peer_known_peers_of_network_eq b p m hmb, HMap.get_insert_self]⟩

/-- Concrete run of C7: two coordinators on network 1 with shared epoch 5
and chain slot 11; B accepts A's HELLO and stores it verbatim. -/
theorem hello_roundtrip_self_consistency_witness :
    ((SimpleSync.mk [] SyncState.Idle 1 5 10).validate_peer 9
        ((SimpleSync.mk [] SyncState.Idle 1 5 10).generate_hello
          (BeaconState.mk 100 5 11 42))).2 = true ∧
    HMap.get ((SimpleSync.mk [] SyncState.Idle 1 5 10).validate_peer 9
        ((SimpleSync.mk [] SyncState.Idle 1 5 10).generate_hello
          (BeaconState.mk 100 5 11 42))).1.known_peers 9 =
      some (PeerSyncInfo.mk 100 5 0 10) :=
  hello_roundtrip_self_consistency (SimpleSync.mk [] SyncState.Idle 1 5 10)
    (SimpleSync.mk [] SyncState.Idle 1 5 10) (BeaconState.mk 100 5 11 42)
    (BeaconState.mk 200 5 11 43) 9
    ((SimpleSync.mk [] SyncState.Idle 1 5 10).generate_hello (BeaconState.mk 100 5 11 42))
    rfl rfl rfl rfl

/-- Claim C8: generate_hello is a pure read -- the HELLO-emitting wrapper
returns the handler (and so the coordinator) unchanged -- and it is
well-defined at every chain state: best_slot is the saturating predecessor
of the chain slot, so the earliest chain state (slot 0) yields best_slot 0
rather than failing. -/
theorem generate_hello_pure_total (s : SimpleSync) (c : BeaconState)
    (h : MessageHandler) (p : PeerId) (id : Nat) (is_req : Bool) :
    (h.send_hello c p id is_req).1 = h ∧
    (s.generate_hello c).best_slot = Slot.sub_one c.slot ∧
    (c.slot = 0 → (s.generate_hello c).best_slot = 0) := by
  refine ⟨rfl, rfl, ?_⟩
  intro h0
  simp [SimpleSync.generate_hello, Slot.sub_one, h0]

/-- Concrete run of C8: emitting a HELLO request leaves the handler state
intact, and a chain at slot 0 produces best_slot 0. -/
theorem generate_hello_pure_total_witness :
    ((MessageHandler.mk (SimpleSync.mk [] SyncState.Idle 1 0 0) [] []).send_hello
        (BeaconState.mk 8 2 0 9) 4 0 true).1 =
      MessageHandler.mk (SimpleSync.mk [] SyncState.Idle 1 0 0) [] [] ∧
    ((SimpleSync.mk [] SyncState.Idle 1 0 0).generate_hello
        (BeaconState.mk 8 2 0 9)).best_slot = 0 :=
  ⟨(generate_hello_pure_total (SimpleSync.mk [] SyncState.Idle 1 0 0) (BeaconState.mk 8 2 0 9)
      (MessageHandler.mk (SimpleSync.mk [] SyncState.Idle 1 0 0) [] []) 4 0 true).1,
   (generate_hello_pure_total (SimpleSync.mk [] SyncState.Idle 1 0 0) (BeaconState.mk 8 2 0 9)
      (MessageHandler.mk (SimpleSync.mk [] SyncState.Idle 1 0 0) [] []) 4 0 true).2.2 rfl⟩

/-- Claim C9: for every coordinator and every chain state -- whatever the
chain's actual head block root -- the HELLO returned by generate_hello
advertises the constant all-zero hash as best_root. -/
theorem generate_hello_best_root_placeholder (s : SimpleSync) (c : BeaconState) :
    (s.generate_hello c).best_root = Hash256.zero :=
  rfl

/-- Claim C10: validate_peer never lets latest_finalized_root influence
the acceptance decision or the sync transition: two handshakes identical
except in that field produce the same boolean, the same SyncState and the
same registry entries for every other peer; only the stored PeerSyncInfo
for this peer records the differing root. -/
theorem validate_peer_finalized_root_noninterference (s : SimpleSync) (p : PeerId)
    (m1 m2 : HelloMessage)
    (hnet : m1.network_id = m2.network_id)
    (hfe : m1.latest_finalized_epoch = m2.latest_finalized_epoch)
    (hbr : m1.best_root = m2.best_root)
    (hbs : m1.best_slot = m2.best_slot) :
    (s.validate_peer p m1).2 = (s.validate_peer p m2).2 ∧
    (s.validate_peer p m1).1.state = (s.validate_peer p m2).1.state ∧
    (∀ q, q ≠ p → HMap.get (s.validate_peer p m1).1.known_peers q =
      HMap.get (s.validate_peer p m2).1.known_peers q) ∧
    (m1.network_id = s.network_id →
      HMap.get (s.validate_peer p m1).1.known_peers p =
        some ⟨m1.latest_finalized_root, m1.latest_finalized_epoch, m1.best_root, m1.best_slot⟩ ∧
      HMap.get (s.validate_peer p m2).1.known_peers p =
        some ⟨m2.latest_finalized_root, m2.latest_finalized_epoch, m2.best_root, m2.best_slot⟩) := by
  by_cases hgood : m1.network_id = s.network_id
  · have hgood2 : m2.network_id = s.network_id := hnet.symm.trans hgood
    refine ⟨?_, ?_, ?_, ?_⟩
    · rw [SimpleSync.validate_peer_snd_of_network_eq s p m1 hgood,
        SimpleSync.validate_peer_snd_of_network_eq s p m2 hgood2]
    · rw [SimpleSync.validate_peer_state_of_network_eq s p m1 hgood,
        SimpleSync.validate_peer_state_of_network_eq s p m2 hgood2, hbs]
    · intro q hq
      rw [SimpleSync.validate_peer_known_peers_of_network_eq s p m1 hgood,
        SimpleSync.validate_peer_known_peers_of_network_eq s p m2 hgood2,
        HMap.get_insert_ne _ _ _ _ hq, HMap.get_insert_ne _ _ _ _ hq]
    · intro _
      constructor
      · rw [SimpleSync.validate_peer_known_peers_of_network_eq s p m1 hgood,
          HMap.get_insert_self]
      · rw [SimpleSync.validate_peer_known_peers_of_network_eq s p m2 hgood2,
          HMap.get_insert_self]
  · have hbad2 : m2.network_id ≠ s.network_id := fun hc => hgood (hnet.trans hc)
    rw [SimpleSync.validate_peer_of_network_ne s p m1 hgood,
      SimpleSync.validate_peer_of_network_ne s p m2 hbad2]
    exact ⟨rfl, rfl, fun q hq => rfl, fun hc => absurd hc hgood⟩

/-- Concrete run of C10: two handshakes differing only in the finalized
root yield the same verdict and SyncState, and the differing root is
recorded in the stored entry. -/
theorem validate_peer_finalized_root_noninterference_witness :
    ((SimpleSync.mk [] SyncState.Idle 1 0 0).validate_peer 5 (HelloMessage.mk 1 111 2 3 4)).2 =
      ((SimpleSync.mk [] SyncState.Idle 1 0 0).validate_peer 5 (HelloMessage.mk 1 222 2 3 4)).2 ∧
    ((SimpleSync.mk [] SyncState.Idle 1 0 0).validate_peer 5
        (HelloMessage.mk 1 111 2 3 4)).1.state =
      ((SimpleSync.mk [] SyncState.Idle 1 0 0).validate_peer 5
        (HelloMessage.mk 1 222 2 3 4)).1.state ∧
    HMap.get ((SimpleSync.mk [] SyncState.Idle 1 0 0).validate_peer 5
        (HelloMessage.mk 1 111 2 3 4)).1.known_peers 5 = some (PeerSyncInfo.mk 111 2 3 4) :=
  ⟨(validate_peer_finalized_root_noninterference (SimpleSync.mk [] SyncState.Idle 1 0 0) 5
      (HelloMessage.mk 1 111 2 3 4) (HelloMessage.mk 1 222 2 3 4) rfl rfl rfl rfl).1,
   (validate_peer_finalized_root_noninterference (SimpleSync.mk [] SyncState.Idle 1 0 0) 5
      (HelloMessage.mk 1 111 2 3 4) (HelloMessage.mk 1 222 2 3 4) rfl rfl rfl rfl).2.1,
   ((validate_peer_finalized_root_noninterference (SimpleSync.mk [] SyncState.Idle 1 0 0) 5
      (HelloMessage.mk 1 111 2 3 4) (HelloMessage.mk 1 222 2 3 4) rfl rfl rfl rfl).2.2.2
      rfl).1⟩
